import Mathlib

/-
  Verification of the kpt-config-sync convergence core (Supervisor event
  processing, Remediator worker) and of the v1alpha1 SafeOverride helper.

  The Supervisor / Event Processor / Remediator worker implementations are
  not part of the source tree given here (only their unit tests are), so the
  corresponding Lean definitions are modelled from the specification,
  constrained by the behavior the unit tests pin down
  (TestApply, TestDestroy, TestProcessApplyEvent, TestProcessPruneEvent,
  TestProcessWaitEvent, TestWorker_ProcessNextObject, TestWorker_Refresh).
  SafeOverride (pkg/api/configsync/v1alpha1) is translated directly from
  its source.
-/

set_option autoImplicit false

namespace ConfigSync

/-! ## Object identity (sigs.k8s.io/cli-utils object.ObjMetadata, schema.GroupVersionKind) -/

/-- Kubernetes group/kind pair (schema.GroupKind). -/
structure GroupKind where
  group : String
  kind : String
deriving DecidableEq, Repr

/-- Kubernetes group/version/kind triple (schema.GroupVersionKind). -/
structure GroupVersionKind where
  group : String
  version : String
  kind : String
deriving DecidableEq, Repr

/-- Projection schema.GroupVersionKind.GroupKind(). -/
def GroupVersionKind.groupKind (gvk : GroupVersionKind) : GroupKind :=
  { group := gvk.group, kind := gvk.kind }

/-- Typed object identity: object.ObjMetadata / core.ID
    (group, kind, namespace, name). -/
structure ObjMetadata where
  groupKind : GroupKind
  ns : String
  name : String
deriving DecidableEq, Repr

/-- Minimal unstructured object: identity plus its GroupVersionKind
    (unstructured.Unstructured, restricted to the fields the event
    processing reads). -/
structure KubeObject where
  gvk : GroupVersionKind
  ns : String
  name : String
deriving DecidableEq, Repr

/-- Identity of an unstructured object (object.UnstructuredToObjMetadata). -/
def KubeObject.objMetadata (o : KubeObject) : ObjMetadata :=
  { groupKind := o.gvk.groupKind, ns := o.ns, name := o.name }

/-- Zero-value unstructured object, mirroring the empty
    unstructured.Unstructured literal used by the event constructors. -/
def nilKubeObject : KubeObject :=
  { gvk := { group := "", version := "", kind := "" }, ns := "", name := "" }

/-! ## Actuation / reconcile status model (sigs.k8s.io/cli-utils apis/actuation) -/

/-- actuation.ActuationStrategy: Apply or Delete. Go zero value is Apply. -/
inductive ActuationStrategy
  | apply
  | delete
deriving DecidableEq, Repr

/-- actuation.ActuationStatus. Go zero value is Pending. -/
inductive ActuationStatus
  | pending
  | succeeded
  | skipped
  | failed
deriving DecidableEq, Repr

/-- actuation.ReconcileStatus. Go zero value is Pending. -/
inductive ReconcileStatus
  | pending
  | succeeded
  | skipped
  | failed
  | timeout
deriving DecidableEq, Repr

/-- Per-object status record (applier.ObjectStatus):
    strategy plus actuation and reconcile state. -/
structure ObjectStatus where
  strategy : ActuationStrategy
  actuation : ActuationStatus
  reconcile : ReconcileStatus
deriving DecidableEq, Repr

/-- Go zero value of ObjectStatus: all fields at their zero enum value. -/
def defaultObjectStatus : ObjectStatus :=
  { strategy := .apply, actuation := .pending, reconcile := .pending }

/-- applier.ObjectStatusMap: map from object identity to its status record,
    embedded as an association list with unique keys kept in insertion
    order. -/
abbrev ObjectStatusMap := List (ObjMetadata × ObjectStatus)

/-- Map lookup (Go map indexing objStatusMap[id]). -/
def ObjectStatusMap.lookup (m : ObjectStatusMap) (id : ObjMetadata) : Option ObjectStatus :=
  match m with
  | [] => none
  | (k, v) :: rest => if k = id then some v else ObjectStatusMap.lookup rest id

/-- Map write (Go map assignment objStatusMap[id] = v): replaces the entry
    for id in place, or appends a new one. -/
def ObjectStatusMap.set (m : ObjectStatusMap) (id : ObjMetadata) (v : ObjectStatus) :
    ObjectStatusMap :=
  match m with
  | [] => [(id, v)]
  | (k, w) :: rest =>
      if k = id then (k, v) :: rest else (k, w) :: ObjectStatusMap.set rest id v

/-! ## Error model -/

/-- inventory.Policy (ownership policy of the inventory). -/
inductive InventoryPolicy
  | adoptIfNoInventory
  | adoptAll
  | mustMatch
deriving DecidableEq, Repr

/-- inventory id match status carried by PolicyPreventedActuationError. -/
inductive IDMatchStatus
  | noMatch
  | idMatch
deriving DecidableEq, Repr

/-- filter relationship direction carried by
    DependencyPreventedActuationError. -/
inductive Relationship
  | dependency
  | dependent
deriving DecidableEq, Repr

/-- filter relation phase carried by DependencyPreventedActuationError:
    the phase the related object was in. -/
inductive RelationPhase
  | actuation
  | reconcile
deriving DecidableEq, Repr

/-- Low-level operation failures carried inside events, one constructor per
    Go error type the event processing distinguishes. -/
inductive OpError
  /-- applyerror.UnknownTypeError wrapping an underlying cause message. -/
  | unknownType (cause : String)
  /-- applyerror.ApplyRunError wrapping an underlying cause message. -/
  | applyRun (cause : String)
  /-- inventory.PolicyPreventedActuationError: ownership-policy mismatch. -/
  | policyPrevented (strategy : ActuationStrategy) (policy : InventoryPolicy)
      (status : IDMatchStatus)
  /-- filter.DependencyPreventedActuationError: skip forced by a relation. -/
  | dependencyPrevented (object : ObjMetadata) (strategy : ActuationStrategy)
      (relationship : Relationship) (relation : ObjMetadata)
      (relationPhase : RelationPhase) (relationActuationStatus : ActuationStatus)
      (relationReconcileStatus : ReconcileStatus)
  /-- filter.NamespaceInUseError: namespace still contains objects. -/
  | namespaceInUse (ns : String)
  /-- Any other error, identified by its message text. -/
  | generic (msg : String)
deriving DecidableEq, Repr

/-- Error message text (the Go Error() string), as far as the event
    processing inspects it. -/
def OpError.message : OpError → String
  | .unknownType cause => cause
  | .applyRun cause => cause
  | .policyPrevented _ _ _ => "inventory policy prevented actuation"
  | .dependencyPrevented _ _ _ _ _ _ _ => "dependency prevented actuation"
  | .namespaceInUse n => String.append "namespace still in use: " n
  | .generic msg => msg

/-- Substring test on character lists, used to embed strings.Contains. -/
def listContainsSub (needle : List Char) : List Char → Bool
  | [] => needle.isPrefixOf []
  | c :: rest => needle.isPrefixOf (c :: rest) || listContainsSub needle rest

/-- util.IsRequestTooLargeError: the error message contains the
    payload-too-large signature "request is too large". -/
def isRequestTooLargeError (e : OpError) : Bool :=
  listContainsSub "request is too large".toList e.message.toList

/-- Typed error taxonomy produced by the Supervisor
    (status errors of pkg/applier). -/
inductive TypedError
  /-- ErrorForResource: an apply failed for a specific object. -/
  | resourceError (cause : OpError) (id : ObjMetadata)
  /-- PruneErrorForResource: a prune failed for a specific object. -/
  | pruneError (cause : OpError) (id : ObjMetadata)
  /-- DeleteErrorForResource: a delete failed for a specific object. -/
  | deleteError (cause : OpError) (id : ObjMetadata)
  /-- SkipErrorForResource: the object was skipped, with the causing error
      and the actuation strategy that was skipped. -/
  | skipError (cause : OpError) (id : ObjMetadata) (strategy : ActuationStrategy)
  /-- KptManagementConflictError: ownership conflict surfaced on apply,
      carrying the conflicting object. -/
  | conflictError (obj : KubeObject)
  /-- largeResourceGroupError: the inventory tracking object exceeded the
      backend size limit; wraps the inventory object identity. -/
  | largeInventoryError (cause : OpError) (id : ObjMetadata)
  /-- Generic wrap of a stream-level error that matched no special case. -/
  | genericError (cause : OpError)
deriving DecidableEq, Repr

/-! ## Event stream (sigs.k8s.io/cli-utils apply/event) -/

/-- Status enum shared by apply, prune and delete events
    (event.ApplyEventStatus / PruneEventStatus / DeleteEventStatus). -/
inductive OpEventStatus
  | pending
  | successful
  | failed
  | skipped
deriving DecidableEq, Repr

/-- event.WaitEventStatus (reconcile outcomes). -/
inductive WaitEventStatus
  | pending
  | successful
  | failed
  | skipped
  | timeout
deriving DecidableEq, Repr

/-- event.ApplyEvent. identifier is none when the event is a pure progress
    marker; resource is the object body when attached. -/
structure ApplyEvent where
  status : OpEventStatus
  identifier : Option ObjMetadata
  resource : Option KubeObject
  error : Option OpError
deriving DecidableEq, Repr

/-- event.PruneEvent. -/
structure PruneEvent where
  status : OpEventStatus
  identifier : Option ObjMetadata
  object : Option KubeObject
  error : Option OpError
deriving DecidableEq, Repr

/-- event.DeleteEvent. -/
structure DeleteEvent where
  status : OpEventStatus
  identifier : Option ObjMetadata
  object : Option KubeObject
  error : Option OpError
deriving DecidableEq, Repr

/-- event.WaitEvent: identifier plus a reconcile status. -/
structure WaitEvent where
  status : WaitEventStatus
  identifier : ObjMetadata
deriving DecidableEq, Repr

/-- event.ErrorEvent: a stream-level error not tied to one object. -/
structure ErrorEvent where
  err : OpError
deriving DecidableEq, Repr

/-- event.Event: the tagged union of stream events. -/
inductive Event
  | applyType (e : ApplyEvent)
  | pruneType (e : PruneEvent)
  | deleteType (e : DeleteEvent)
  | waitType (e : WaitEvent)
  | errorType (e : ErrorEvent)
deriving DecidableEq, Repr

/-! ## Sync statistics (pkg/applier/stats) -/

/-- stats.SyncStats: counters keyed by event subtype; embedded as the list
    of statuses observed per event class. -/
structure SyncStats where
  applyEvents : List OpEventStatus
  pruneEvents : List OpEventStatus
  deleteEvents : List OpEventStatus
  waitEvents : List WaitEventStatus
  errorEvents : Nat
deriving DecidableEq, Repr

/-- Fresh statistics at the start of a cycle (stats.NewSyncStats). -/
def emptySyncStats : SyncStats :=
  { applyEvents := [], pruneEvents := [], deleteEvents := [], waitEvents := [],
    errorEvents := 0 }

/-! ## Event Processor

Modelled from the spec: the event-draining loop of pkg/applier
(processApplyEvent, processPruneEvent, processDeleteEvent,
processWaitEvent, the ErrorType branch, and supervisor.Apply /
supervisor.Destroy) is not present in the source tree; the definitions
below follow the specification text (spec sections 4.2, 4.4, 4.5)
constrained by the expectations of TestApply, TestDestroy,
TestProcessApplyEvent, TestProcessPruneEvent and TestProcessWaitEvent. -/

/-- State threaded through one draining loop. -/
structure EventProcState where
  statusMap : ObjectStatusMap
  unknownTypeResources : List ObjMetadata
  errs : List TypedError
  stats : SyncStats
deriving DecidableEq, Repr

/-- Initial state of one cycle. -/
def initProcState : EventProcState :=
  { statusMap := [], unknownTypeResources := [], errs := [], stats := emptySyncStats }

/-- Classification of an apply skip (handleApplySkippedEvent):
    dependency-caused skips become SkipError with the strategy recorded in
    the dependency error; ownership-policy skips become a management
    conflict carrying the object; everything else becomes SkipError with
    Apply strategy. -/
def handleApplySkippedEvent (resource : Option KubeObject) (id : ObjMetadata)
    (err : Option OpError) : Option TypedError :=
  match err with
  | some (OpError.dependencyPrevented o strat rel relObj phase ras rrs) =>
      some (TypedError.skipError
        (OpError.dependencyPrevented o strat rel relObj phase ras rrs) id strat)
  | some (OpError.policyPrevented _ _ _) =>
      some (TypedError.conflictError (resource.getD nilKubeObject))
  | _ => some (TypedError.skipError (err.getD (OpError.generic "")) id ActuationStrategy.apply)

/-- Classification of a prune skip (handlePruneSkippedEvent):
    ownership-policy skips produce no error (abandonment is permitted);
    dependency-caused skips become SkipError with the recorded strategy;
    everything else (including NamespaceInUseError) becomes SkipError with
    Delete strategy. -/
def handlePruneSkippedEvent (id : ObjMetadata) (err : Option OpError) : Option TypedError :=
  match err with
  | some (OpError.dependencyPrevented o strat rel relObj phase ras rrs) =>
      some (TypedError.skipError
        (OpError.dependencyPrevented o strat rel relObj phase ras rrs) id strat)
  | some (OpError.policyPrevented _ _ _) => none
  | _ => some (TypedError.skipError (err.getD (OpError.generic "")) id ActuationStrategy.delete)

/-- Classification of a delete skip (handleDeleteSkippedEvent); same policy
    as prune skips. -/
def handleDeleteSkippedEvent (id : ObjMetadata) (err : Option OpError) : Option TypedError :=
  match err with
  | some (OpError.dependencyPrevented o strat rel relObj phase ras rrs) =>
      some (TypedError.skipError
        (OpError.dependencyPrevented o strat rel relObj phase ras rrs) id strat)
  | some (OpError.policyPrevented _ _ _) => none
  | _ => some (TypedError.skipError (err.getD (OpError.generic "")) id ActuationStrategy.delete)

/-- processApplyEvent: update stats; an event with no identifier is a
    progress marker (statistics only); otherwise set the Apply strategy and
    the actuation outcome for the object, record unknown-type failures, and
    classify failures and skips into typed errors. -/
def processApplyEvent (e : ApplyEvent) (st : EventProcState) : EventProcState :=
  let stats1 := { st.stats with applyEvents := st.stats.applyEvents ++ [e.status] }
  match e.identifier with
  | none => { st with stats := stats1 }
  | some id =>
    let prev := (st.statusMap.lookup id).getD defaultObjectStatus
    let base := { prev with strategy := ActuationStrategy.apply }
    match e.status with
    | .pending =>
        { st with
          stats := stats1,
          statusMap := st.statusMap.set id { base with actuation := .pending } }
    | .successful =>
        { st with
          stats := stats1,
          statusMap := st.statusMap.set id { base with actuation := .succeeded } }
    | .failed =>
        let cause := e.error.getD (OpError.generic "")
        let unknown :=
          match cause with
          | OpError.unknownType _ => st.unknownTypeResources ++ [id]
          | _ => st.unknownTypeResources
        { st with
          stats := stats1,
          statusMap := st.statusMap.set id { base with actuation := .failed },
          unknownTypeResources := unknown,
          errs := st.errs ++ [TypedError.resourceError cause id] }
    | .skipped =>
        { st with
          stats := stats1,
          statusMap := st.statusMap.set id { base with actuation := .skipped },
          errs := st.errs ++ (handleApplySkippedEvent e.resource id e.error).toList }

/-- processPruneEvent: like processApplyEvent but with Delete strategy,
    PruneErrorForResource on failure and the prune skip classification. -/
def processPruneEvent (e : PruneEvent) (st : EventProcState) : EventProcState :=
  let stats1 := { st.stats with pruneEvents := st.stats.pruneEvents ++ [e.status] }
  match e.identifier with
  | none => { st with stats := stats1 }
  | some id =>
    let prev := (st.statusMap.lookup id).getD defaultObjectStatus
    let base := { prev with strategy := ActuationStrategy.delete }
    match e.status with
    | .pending =>
        { st with
          stats := stats1,
          statusMap := st.statusMap.set id { base with actuation := .pending } }
    | .successful =>
        { st with
          stats := stats1,
          statusMap := st.statusMap.set id { base with actuation := .succeeded } }
    | .failed =>
        let cause := e.error.getD (OpError.generic "")
        { st with
          stats := stats1,
          statusMap := st.statusMap.set id { base with actuation := .failed },
          errs := st.errs ++ [TypedError.pruneError cause id] }
    | .skipped =>
        { st with
          stats := stats1,
          statusMap := st.statusMap.set id { base with actuation := .skipped },
          errs := st.errs ++ (handlePruneSkippedEvent id e.error).toList }

/-- processDeleteEvent: the Destroy-side analog of processPruneEvent, with
    DeleteErrorForResource on failure. -/
def processDeleteEvent (e : DeleteEvent) (st : EventProcState) : EventProcState :=
  let stats1 := { st.stats with deleteEvents := st.stats.deleteEvents ++ [e.status] }
  match e.identifier with
  | none => { st with stats := stats1 }
  | some id =>
    let prev := (st.statusMap.lookup id).getD defaultObjectStatus
    let base := { prev with strategy := ActuationStrategy.delete }
    match e.status with
    | .pending =>
        { st with
          stats := stats1,
          statusMap := st.statusMap.set id { base with actuation := .pending } }
    | .successful =>
        { st with
          stats := stats1,
          statusMap := st.statusMap.set id { base with actuation := .succeeded } }
    | .failed =>
        let cause := e.error.getD (OpError.generic "")
        { st with
          stats := stats1,
          statusMap := st.statusMap.set id { base with actuation := .failed },
          errs := st.errs ++ [TypedError.deleteError cause id] }
    | .skipped =>
        { st with
          stats := stats1,
          statusMap := st.statusMap.set id { base with actuation := .skipped },
          errs := st.errs ++ (handleDeleteSkippedEvent id e.error).toList }

/-- Translation of a wait event status to the recorded reconcile state. -/
def WaitEventStatus.toReconcile : WaitEventStatus → ReconcileStatus
  | .pending => .pending
  | .successful => .succeeded
  | .failed => .failed
  | .skipped => .skipped
  | .timeout => .timeout

/-- processWaitEvent: update stats and record the reconcile state for the
    event identifier, creating a fresh (zero-valued) record when the object
    has no prior entry, exactly as TestProcessWaitEvent expects; never
    produces an error. -/
def processWaitEvent (e : WaitEvent) (st : EventProcState) : EventProcState :=
  let stats1 := { st.stats with waitEvents := st.stats.waitEvents ++ [e.status] }
  let prev := (st.statusMap.lookup e.identifier).getD defaultObjectStatus
  { st with
    stats := stats1,
    statusMap := st.statusMap.set e.identifier
      { prev with reconcile := e.status.toReconcile } }

/-- Stream-level error event handling: a payload-too-large failure is
    classified as LargeInventoryError wrapping the inventory object
    identity; anything else is wrapped generically. -/
def processErrorEvent (invID : ObjMetadata) (e : ErrorEvent) (st : EventProcState) :
    EventProcState :=
  let stats1 := { st.stats with errorEvents := st.stats.errorEvents + 1 }
  let err :=
    if isRequestTooLargeError e.err then TypedError.largeInventoryError e.err invID
    else TypedError.genericError e.err
  { st with
          stats := stats1, errs := st.errs ++ [err] }

/-- One step of the Apply draining loop: apply, prune, wait and error
    events are processed; delete events do not occur in an apply stream and
    are ignored. -/
def applyEventStep (invID : ObjMetadata) (st : EventProcState) (ev : Event) :
    EventProcState :=
  match ev with
  | .applyType e => processApplyEvent e st
  | .pruneType e => processPruneEvent e st
  | .deleteType _ => st
  | .waitType e => processWaitEvent e st
  | .errorType e => processErrorEvent invID e st

/-- One step of the Destroy draining loop: delete, wait and error events
    are processed; apply and prune events are ignored. -/
def destroyEventStep (invID : ObjMetadata) (st : EventProcState) (ev : Event) :
    EventProcState :=
  match ev with
  | .applyType _ => st
  | .pruneType _ => st
  | .deleteType e => processDeleteEvent e st
  | .waitType e => processWaitEvent e st
  | .errorType e => processErrorEvent invID e st

/-- Observed kinds returned by Apply: the GroupVersionKinds of the declared
    objects, excluding objects recorded as unknown-type during event
    processing (per the gvks loop at the end of applyInner, pinned by the
    gvks expectations of TestApply). -/
def computeObservedGVKs (objs : List KubeObject) (unknown : List ObjMetadata) :
    List GroupVersionKind :=
  (((objs.filter (fun o => !(decide (o.objMetadata ∈ unknown)))).map
    (fun o => o.gvk))).dedup

/-- Result of supervisor.Apply: observed kinds, aggregated errors, the
    per-object status map and the cycle statistics. -/
structure ApplyResult where
  gvks : List GroupVersionKind
  errs : List TypedError
  statusMap : ObjectStatusMap
  stats : SyncStats
deriving DecidableEq, Repr

/-- supervisor.Apply, as a function of the inventory object identity, the
    declared objects and the engine event stream: drain the stream through
    the Event Processor and return the observed kinds and aggregated
    errors. -/
def supervisorApply (invID : ObjMetadata) (objs : List KubeObject)
    (events : List Event) : ApplyResult :=
  let st := events.foldl (applyEventStep invID) initProcState
  { gvks := computeObservedGVKs objs st.unknownTypeResources,
    errs := st.errs, statusMap := st.statusMap, stats := st.stats }

/-- Result of supervisor.Destroy. -/
structure DestroyResult where
  errs : List TypedError
  statusMap : ObjectStatusMap
  stats : SyncStats
deriving DecidableEq, Repr

/-- supervisor.Destroy: drain a delete-only event stream. -/
def supervisorDestroy (invID : ObjMetadata) (events : List Event) : DestroyResult :=
  let st := events.foldl (destroyEventStep invID) initProcState
  { errs := st.errs, statusMap := st.statusMap, stats := st.stats }

/-! ## Event constructors mirroring the test helpers (formApplyEvent etc.) -/

/-- formApplyEvent: an apply event; when an identifier is given the
    resource is the empty unstructured object. -/
def formApplyEvent (status : OpEventStatus) (id : Option ObjMetadata)
    (err : Option OpError) : Event :=
  Event.applyType
    { status := status, identifier := id,
      resource := if id.isSome then some nilKubeObject else none, error := err }

/-- formApplySkipEvent: a skipped apply event carrying the object body. -/
def formApplySkipEvent (id : ObjMetadata) (obj : KubeObject) (err : OpError) : Event :=
  Event.applyType
    { status := .skipped, identifier := some id, resource := some obj,
      error := some err }

/-- formPruneEvent: a prune event; when an identifier is given the object
    is the empty unstructured object. -/
def formPruneEvent (status : OpEventStatus) (id : Option ObjMetadata)
    (err : Option OpError) : Event :=
  Event.pruneType
    { status := status, identifier := id,
      object := if id.isSome then some nilKubeObject else none, error := err }

/-- formDeleteEvent: a delete event; when an identifier is given the object
    is the empty unstructured object. -/
def formDeleteEvent (status : OpEventStatus) (id : Option ObjMetadata)
    (err : Option OpError) : Event :=
  Event.deleteType
    { status := status, identifier := id,
      object := if id.isSome then some nilKubeObject else none, error := err }

/-- formDeleteSkipEvent: a skipped delete event carrying the object body. -/
def formDeleteSkipEvent (id : ObjMetadata) (obj : KubeObject) (err : OpError) : Event :=
  Event.deleteType
    { status := .skipped, identifier := some id, object := some obj,
      error := some err }

/-- formWaitEvent: a wait event for an identifier. -/
def formWaitEvent (status : WaitEventStatus) (id : ObjMetadata) : Event :=
  Event.waitType { status := status, identifier := id }

/-- formErrorEvent: a stream-level error event. -/
def formErrorEvent (err : OpError) : Event :=
  Event.errorType { err := err }

/-! ## Concrete fixtures from the unit tests -/

/-- GroupVersionKind of apps/v1 Deployment (kinds.Deployment()). -/
def deploymentGVK : GroupVersionKind :=
  { group := "apps", version := "v1", kind := "Deployment" }

/-- GroupVersionKind of the configsync.test/v1 Test kind (newTestObj). -/
def testGVK : GroupVersionKind :=
  { group := "configsync.test", version := "v1", kind := "Test" }

/-- newDeploymentObj: a Deployment named random-name in test-namespace. -/
def deploymentObj : KubeObject :=
  { gvk := deploymentGVK, ns := "test-namespace", name := "random-name" }

/-- newTestObj: a Test object named random-name in test-namespace. -/
def testObj : KubeObject :=
  { gvk := testGVK, ns := "test-namespace", name := "random-name" }

/-- Identity of deploymentObj. -/
def deploymentID : ObjMetadata := deploymentObj.objMetadata

/-- Identity of testObj. -/
def testID : ObjMetadata := testObj.objMetadata

/-- Identity of the inventory ResourceGroup object named rs in
    test-namespace (the uid of the tests). -/
def rsInvID : ObjMetadata :=
  { groupKind := { group := "kpt.dev", kind := "ResourceGroup" },
    ns := "test-namespace", name := "rs" }

/-- Identity of the test-namespace Namespace object. -/
def namespaceID : ObjMetadata :=
  { groupKind := { group := "", kind := "Namespace" }, ns := "",
    name := "test-namespace" }

/-- Sentinel error satisfying util.IsRequestTooLargeError. -/
def etcdError : OpError := OpError.generic "etcdserver: request is too large"

/-! ## Specification-side characterizations

Each definition below formalizes a sentence of the specification
independently of the event-processing fold, so that the theorems compare
the two. -/

/-- Spec reading of claim C1: the GroupVersionKind of every distinct kind
    observed in apply events of the stream. -/
def specObservedApplyGVKs (events : List Event) : List GroupVersionKind :=
  (events.filterMap (fun ev =>
    match ev with
    | Event.applyType e => e.resource.map (fun r => r.gvk)
    | _ => none)).dedup

/-- Identifier recorded as an unknown-type resource by one event, stated
    directly on the event: a failed apply event with an identifier whose
    error is an UnknownTypeError. -/
def specUnknownTypeIdOf (ev : Event) : Option ObjMetadata :=
  match ev with
  | Event.applyType e =>
      match e.identifier, e.status, e.error with
      | some id, OpEventStatus.failed, some (OpError.unknownType _) => some id
      | _, _, _ => none
  | _ => none

/-- All identifiers recorded as unknown-type resources by a stream. -/
def specUnknownTypeIds (events : List Event) : List ObjMetadata :=
  events.filterMap specUnknownTypeIdOf

/-- Typed error an event of the Apply stream contributes, stated directly
    on the event (classification happens exactly once, per spec 4.2). -/
def applyPipelineErrorOf (invID : ObjMetadata) (ev : Event) : Option TypedError :=
  match ev with
  | Event.applyType e =>
      match e.identifier with
      | none => none
      | some id =>
          match e.status with
          | .failed => some (TypedError.resourceError (e.error.getD (OpError.generic "")) id)
          | .skipped => handleApplySkippedEvent e.resource id e.error
          | _ => none
  | Event.pruneType e =>
      match e.identifier with
      | none => none
      | some id =>
          match e.status with
          | .failed => some (TypedError.pruneError (e.error.getD (OpError.generic "")) id)
          | .skipped => handlePruneSkippedEvent id e.error
          | _ => none
  | Event.deleteType _ => none
  | Event.waitType _ => none
  | Event.errorType e =>
      some (if isRequestTooLargeError e.err then TypedError.largeInventoryError e.err invID
            else TypedError.genericError e.err)

/-- Typed error an event of the Destroy stream contributes. -/
def destroyPipelineErrorOf (invID : ObjMetadata) (ev : Event) : Option TypedError :=
  match ev with
  | Event.applyType _ => none
  | Event.pruneType _ => none
  | Event.deleteType e =>
      match e.identifier with
      | none => none
      | some id =>
          match e.status with
          | .failed => some (TypedError.deleteError (e.error.getD (OpError.generic "")) id)
          | .skipped => handleDeleteSkippedEvent id e.error
          | _ => none
  | Event.waitType _ => none
  | Event.errorType e =>
      some (if isRequestTooLargeError e.err then TypedError.largeInventoryError e.err invID
            else TypedError.genericError e.err)

/-- Whether an event of the Apply stream can touch the status-map entry of
    a given identifier. -/
def applyEventTouches (id : ObjMetadata) (ev : Event) : Bool :=
  match ev with
  | Event.applyType e => decide (e.identifier = some id)
  | Event.pruneType e => decide (e.identifier = some id)
  | Event.deleteType _ => false
  | Event.waitType e => decide (e.identifier = id)
  | Event.errorType _ => false

/-- Whether an event of the Destroy stream can touch the status-map entry
    of a given identifier. -/
def destroyEventTouches (id : ObjMetadata) (ev : Event) : Bool :=
  match ev with
  | Event.applyType _ => false
  | Event.pruneType _ => false
  | Event.deleteType e => decide (e.identifier = some id)
  | Event.waitType e => decide (e.identifier = id)
  | Event.errorType _ => false

/-! ## Remediator worker

Modelled from the spec: pkg/remediator/reconcile (Worker.process,
reconciler.Remediate, Worker.refresh) and pkg/remediator/queue are not
present in the source tree; the definitions follow spec section 4.6,
constrained by TestWorker_ProcessNextObject and TestWorker_Refresh. -/

/-- A live or declared object: identity plus its manifest content. -/
structure LiveObject where
  id : ObjMetadata
  body : String
deriving DecidableEq, Repr

/-- Lookup by identity in a declared set or a cluster. -/
def lookupLive (objs : List LiveObject) (id : ObjMetadata) : Option LiveObject :=
  match objs with
  | [] => none
  | o :: rest => if o.id = id then some o else lookupLive rest id

/-- Deletion by identity from a cluster. -/
def eraseLive (objs : List LiveObject) (id : ObjMetadata) : List LiveObject :=
  match objs with
  | [] => []
  | o :: rest => if o.id = id then eraseLive rest id else o :: eraseLive rest id

/-- Create-or-update in a cluster: replace the object with the same
    identity, or append when missing. -/
def setLive (objs : List LiveObject) (v : LiveObject) : List LiveObject :=
  match objs with
  | [] => [v]
  | o :: rest => if o.id = v.id then v :: rest else o :: setLive rest v

/-- One remediator queue entry: the observed object plus the tombstone flag
    set by queue.MarkDeleted when the object was observed deleted. -/
structure QueueEntry where
  obj : LiveObject
  deleted : Bool
deriving DecidableEq, Repr

/-- Modelled from the spec: Worker.process / reconciler.Remediate (absent
    from the source tree). Look up the declared state for the entry
    identity: if undeclared, delete the live copy if it exists; if declared
    and the entry is tombstoned or the live object diverges from the
    declared state, re-apply the declared state (create if missing, update
    if present); otherwise leave the cluster unchanged. -/
def workerProcess (declared : List LiveObject) (cluster : List LiveObject)
    (entry : QueueEntry) : List LiveObject :=
  match lookupLive declared entry.obj.id with
  | none => eraseLive cluster entry.obj.id
  | some decl =>
      if entry.deleted = true ∨ lookupLive cluster entry.obj.id ≠ some decl then
        setLive cluster decl
      else cluster

/-- Outcome of the direct get a refresh performs (cluster client). -/
inductive GetResult
  | notFound
  | ok (obj : LiveObject)
  | apiError (e : OpError)
deriving DecidableEq, Repr

/-- Errors surfaced by the remediator worker (status.APIServerError). -/
inductive RemediatorError
  | apiServerError (cause : OpError)
deriving DecidableEq, Repr

/-- Modelled from the spec: Worker.refresh (absent from the source tree).
    Refreshes the in-memory record for an object from a direct get:
    not-found re-queues the object marked deleted and is not an error; a
    successful get re-queues the fetched state; any other API error leaves
    the queue entry unchanged and is returned. The first component is the
    pending queue entry for the object, the second the returned error. -/
def workerRefresh (res : GetResult) (pending : Option QueueEntry) (o : LiveObject) :
    Option QueueEntry × Option RemediatorError :=
  match res with
  | GetResult.notFound => (some { obj := o, deleted := true }, none)
  | GetResult.ok u => (some { obj := u, deleted := false }, none)
  | GetResult.apiError e => (pending, some (RemediatorError.apiServerError e))

/-! ## SafeOverride (pkg/api/configsync/v1alpha1), translated from source -/

/-- metav1.Duration, as nanoseconds. -/
structure Duration where
  nanos : Int
deriving DecidableEq, Repr

/-- ContainerResourcesSpec: per-container resource requirement override;
    quantities are kept as their textual form. -/
structure ContainerResourcesSpec where
  containerName : String
  cpuRequest : String
  memoryRequest : String
  cpuLimit : String
  memoryLimit : String
deriving DecidableEq, Repr

/-- OverrideSpec: reconciler pod settings override. -/
structure OverrideSpec where
  resources : List ContainerResourcesSpec
  gitSyncDepth : Option Int
  statusMode : String
  reconcileTimeout : Option Duration
  apiServerTimeout : Option Duration
  enableShellInRendering : Option Bool
deriving DecidableEq, Repr

/-- Go zero value of OverrideSpec, produced by the OverrideSpec literal in
    SafeOverride. -/
def emptyOverrideSpec : OverrideSpec :=
  { resources := [], gitSyncDepth := none, statusMode := "",
    reconcileTimeout := none, apiServerTimeout := none,
    enableShellInRendering := none }

/-- RepoSyncSpec, restricted to the field SafeOverride touches. -/
structure RepoSyncSpec where
  override : Option OverrideSpec
deriving DecidableEq, Repr

/-- RootSyncSpec, restricted to the field SafeOverride touches. -/
structure RootSyncSpec where
  override : Option OverrideSpec
deriving DecidableEq, Repr

/-- RepoSyncSpec.SafeOverride: create an override or return the existing
    one. The Go method mutates the receiver and returns a pointer into it;
    the embedding returns the updated receiver together with the value the
    returned pointer denotes. -/
def RepoSyncSpec.safeOverride (rs : RepoSyncSpec) : RepoSyncSpec × OverrideSpec :=
  match rs.override with
  | none => ({ rs with override := some emptyOverrideSpec }, emptyOverrideSpec)
  | some o => (rs, o)

/-- RootSyncSpec.SafeOverride: same contract as RepoSyncSpec.SafeOverride. -/
def RootSyncSpec.safeOverride (rs : RootSyncSpec) : RootSyncSpec × OverrideSpec :=
  match rs.override with
  | none => ({ rs with override := some emptyOverrideSpec }, emptyOverrideSpec)
  | some o => (rs, o)

/-! ## Association-list lemmas for ObjectStatusMap -/

/-- Writing an entry makes it the result of a lookup at the same key. -/
lemma ObjectStatusMap.lookup_set_self (m : ObjectStatusMap) (id : ObjMetadata)
    (v : ObjectStatus) : (m.set id v).lookup id = some v := by
  induction m with
  | nil => simp [ObjectStatusMap.set, ObjectStatusMap.lookup]
  | cons kv rest ih =>
      obtain ⟨k, w⟩ := kv
      by_cases h : k = id <;>
        simp [ObjectStatusMap.set, ObjectStatusMap.lookup, h, ih]

/-- Writing an entry leaves lookups at other keys unchanged. -/
lemma ObjectStatusMap.lookup_set_other (m : ObjectStatusMap) (k j : ObjMetadata)
    (v : ObjectStatus) (h : j ≠ k) : (m.set k v).lookup j = m.lookup j := by
  induction m with
  | nil =>
      have h2 : k ≠ j := Ne.symm h
      simp [ObjectStatusMap.set, ObjectStatusMap.lookup, h2]
  | cons kv rest ih =>
      obtain ⟨k0, w⟩ := kv
      by_cases hk : k0 = k
      · subst hk
        have h2 : k0 ≠ j := Ne.symm h
        simp [ObjectStatusMap.set, ObjectStatusMap.lookup, h2]
      · simp [ObjectStatusMap.set, ObjectStatusMap.lookup, hk, ih]

/-! ## Error aggregation lemmas: the draining loop appends exactly the
classification of each event, in arrival order -/

/-- One Apply-stream step contributes exactly the per-event classified
    error to the error collection. -/
lemma applyEventStep_errs (invID : ObjMetadata) (st : EventProcState) (ev : Event) :
    (applyEventStep invID st ev).errs
      = st.errs ++ (applyPipelineErrorOf invID ev).toList := by
  cases ev with
  | applyType e =>
      obtain ⟨status, eid, res, err⟩ := e
      cases eid <;> cases status <;>
        simp [applyEventStep, processApplyEvent, applyPipelineErrorOf]
  | pruneType e =>
      obtain ⟨status, eid, obj, err⟩ := e
      cases eid <;> cases status <;>
        simp [applyEventStep, processPruneEvent, applyPipelineErrorOf]
  | deleteType e => simp [applyEventStep, applyPipelineErrorOf]
  | waitType e => simp [applyEventStep, processWaitEvent, applyPipelineErrorOf]
  | errorType e => simp [applyEventStep, processErrorEvent, applyPipelineErrorOf]

/-- One Destroy-stream step contributes exactly the per-event classified
    error to the error collection. -/
lemma destroyEventStep_errs (invID : ObjMetadata) (st : EventProcState) (ev : Event) :
    (destroyEventStep invID st ev).errs
      = st.errs ++ (destroyPipelineErrorOf invID ev).toList := by
  cases ev with
  | applyType e => simp [destroyEventStep, destroyPipelineErrorOf]
  | pruneType e => simp [destroyEventStep, destroyPipelineErrorOf]
  | deleteType e =>
      obtain ⟨status, eid, obj, err⟩ := e
      cases eid <;> cases status <;>
        simp [destroyEventStep, processDeleteEvent, destroyPipelineErrorOf]
  | waitType e => simp [destroyEventStep, processWaitEvent, destroyPipelineErrorOf]
  | errorType e => simp [destroyEventStep, processErrorEvent, destroyPipelineErrorOf]

/-- Draining an Apply stream accumulates exactly the classified error of
    each event, in stream order: nothing is dropped or collapsed. -/
lemma foldl_applyEventStep_errs (invID : ObjMetadata) (events : List Event) :
    ∀ st : EventProcState,
      (events.foldl (applyEventStep invID) st).errs
        = st.errs ++ events.filterMap (applyPipelineErrorOf invID) := by
  induction events with
  | nil => intro st; simp
  | cons ev rest ih =>
      intro st
      simp only [List.foldl_cons, List.filterMap_cons]
      rw [ih, applyEventStep_errs]
      cases applyPipelineErrorOf invID ev <;> simp

/-- Draining a Destroy stream accumulates exactly the classified error of
    each event, in stream order. -/
lemma foldl_destroyEventStep_errs (invID : ObjMetadata) (events : List Event) :
    ∀ st : EventProcState,
      (events.foldl (destroyEventStep invID) st).errs
        = st.errs ++ events.filterMap (destroyPipelineErrorOf invID) := by
  induction events with
  | nil => intro st; simp
  | cons ev rest ih =>
      intro st
      simp only [List.foldl_cons, List.filterMap_cons]
      rw [ih, destroyEventStep_errs]
      cases destroyPipelineErrorOf invID ev <;> simp

/-! ## Unknown-type bookkeeping lemmas -/

/-- One Apply-stream step records exactly the unknown-type identifier of
    the event, if any. -/
lemma applyEventStep_unknown (invID : ObjMetadata) (st : EventProcState) (ev : Event) :
    (applyEventStep invID st ev).unknownTypeResources
      = st.unknownTypeResources ++ (specUnknownTypeIdOf ev).toList := by
  cases ev with
  | applyType e =>
      obtain ⟨status, eid, res, err⟩ := e
      cases eid <;> cases status <;> cases err <;>
        first
        | (simp [applyEventStep, processApplyEvent, specUnknownTypeIdOf]
           done)
        | (rename_i c
           cases c <;> simp [applyEventStep, processApplyEvent, specUnknownTypeIdOf])
  | pruneType e =>
      obtain ⟨status, eid, obj, err⟩ := e
      cases eid <;> cases status <;>
        simp [applyEventStep, processPruneEvent, specUnknownTypeIdOf]
  | deleteType e => simp [applyEventStep, specUnknownTypeIdOf]
  | waitType e => simp [applyEventStep, processWaitEvent, specUnknownTypeIdOf]
  | errorType e => simp [applyEventStep, processErrorEvent, specUnknownTypeIdOf]

/-- Draining an Apply stream records exactly the identifiers of the failed
    apply events whose error is an UnknownTypeError. -/
lemma foldl_applyEventStep_unknown (invID : ObjMetadata) (events : List Event) :
    ∀ st : EventProcState,
      (events.foldl (applyEventStep invID) st).unknownTypeResources
        = st.unknownTypeResources ++ specUnknownTypeIds events := by
  induction events with
  | nil => intro st; simp [specUnknownTypeIds]
  | cons ev rest ih =>
      intro st
      simp only [List.foldl_cons, specUnknownTypeIds, List.filterMap_cons]
      rw [ih, applyEventStep_unknown]
      cases specUnknownTypeIdOf ev <;> simp [specUnknownTypeIds]

/-! ## Status-map frame lemmas: events that do not mention an identifier
do not change its status record -/

/-- One Apply-stream step leaves the status record of an identifier it does
    not touch unchanged. -/
lemma applyEventStep_lookup_untouched (invID : ObjMetadata) (st : EventProcState)
    (ev : Event) (id : ObjMetadata) (h : applyEventTouches id ev = false) :
    ((applyEventStep invID st ev).statusMap).lookup id = st.statusMap.lookup id := by
  cases ev with
  | applyType e =>
      obtain ⟨status, eid, res, err⟩ := e
      cases eid with
      | none => cases status <;> simp [applyEventStep, processApplyEvent]
      | some j =>
          have hj : id ≠ j := by
            intro hji
            subst hji
            simp [applyEventTouches] at h
          cases status <;>
            simp [applyEventStep, processApplyEvent,
              ObjectStatusMap.lookup_set_other _ _ _ _ hj]
  | pruneType e =>
      obtain ⟨status, eid, obj, err⟩ := e
      cases eid with
      | none => cases status <;> simp [applyEventStep, processPruneEvent]
      | some j =>
          have hj : id ≠ j := by
            intro hji
            subst hji
            simp [applyEventTouches] at h
          cases status <;>
            simp [applyEventStep, processPruneEvent,
              ObjectStatusMap.lookup_set_other _ _ _ _ hj]
  | deleteType e => simp [applyEventStep]
  | waitType e =>
      have hj : id ≠ e.identifier := by
        intro hji
        subst hji
        simp [applyEventTouches] at h
      simp [applyEventStep, processWaitEvent,
        ObjectStatusMap.lookup_set_other _ _ _ _ hj]
  | errorType e => simp [applyEventStep, processErrorEvent]

/-- One Destroy-stream step leaves the status record of an identifier it
    does not touch unchanged. -/
lemma destroyEventStep_lookup_untouched (invID : ObjMetadata) (st : EventProcState)
    (ev : Event) (id : ObjMetadata) (h : destroyEventTouches id ev = false) :
    ((destroyEventStep invID st ev).statusMap).lookup id = st.statusMap.lookup id := by
  cases ev with
  | applyType e => simp [destroyEventStep]
  | pruneType e => simp [destroyEventStep]
  | deleteType e =>
      obtain ⟨status, eid, obj, err⟩ := e
      cases eid with
      | none => cases status <;> simp [destroyEventStep, processDeleteEvent]
      | some j =>
          have hj : id ≠ j := by
            intro hji
            subst hji
            simp [destroyEventTouches] at h
          cases status <;>
            simp [destroyEventStep, processDeleteEvent,
              ObjectStatusMap.lookup_set_other _ _ _ _ hj]
  | waitType e =>
      have hj : id ≠ e.identifier := by
        intro hji
        subst hji
        simp [destroyEventTouches] at h
      simp [destroyEventStep, processWaitEvent,
        ObjectStatusMap.lookup_set_other _ _ _ _ hj]
  | errorType e => simp [destroyEventStep, processErrorEvent]

/-- Draining events that never touch an identifier leaves its status
    record unchanged. -/
lemma foldl_applyEventStep_lookup_untouched (invID : ObjMetadata)
    (events : List Event) :
    ∀ (st : EventProcState) (id : ObjMetadata),
      (∀ ev ∈ events, applyEventTouches id ev = false) →
      ((events.foldl (applyEventStep invID) st).statusMap).lookup id
        = st.statusMap.lookup id := by
  induction events with
  | nil => intro st id _; rfl
  | cons ev rest ih =>
      intro st id h
      simp only [List.foldl_cons]
      rw [ih _ id (fun e he => h e (List.mem_cons_of_mem _ he)),
        applyEventStep_lookup_untouched _ _ _ _ (h ev (List.mem_cons_self _ _))]

/-- Destroy-stream version of the draining frame lemma. -/
lemma foldl_destroyEventStep_lookup_untouched (invID : ObjMetadata)
    (events : List Event) :
    ∀ (st : EventProcState) (id : ObjMetadata),
      (∀ ev ∈ events, destroyEventTouches id ev = false) →
      ((events.foldl (destroyEventStep invID) st).statusMap).lookup id
        = st.statusMap.lookup id := by
  induction events with
  | nil => intro st id _; rfl
  | cons ev rest ih =>
      intro st id h
      simp only [List.foldl_cons]
      rw [ih _ id (fun e he => h e (List.mem_cons_of_mem _ he)),
        destroyEventStep_lookup_untouched _ _ _ _ (h ev (List.mem_cons_self _ _))]

/-! ## Terminal-status lemmas for failed events -/

/-- A failed apply event with an identifier leaves that object with
    Actuation=Failed. -/
lemma applyEventStep_failed_actuation (invID : ObjMetadata) (st : EventProcState)
    (id : ObjMetadata) (cause : Option OpError) :
    (((applyEventStep invID st
        (formApplyEvent .failed (some id) cause)).statusMap).lookup id).map
      ObjectStatus.actuation = some ActuationStatus.failed := by
  simp [applyEventStep, processApplyEvent, formApplyEvent,
    ObjectStatusMap.lookup_set_self]

/-- A failed prune event with an identifier leaves that object with
    Actuation=Failed. -/
lemma applyEventStep_pruneFailed_actuation (invID : ObjMetadata) (st : EventProcState)
    (id : ObjMetadata) (cause : Option OpError) :
    (((applyEventStep invID st
        (formPruneEvent .failed (some id) cause)).statusMap).lookup id).map
      ObjectStatus.actuation = some ActuationStatus.failed := by
  simp [applyEventStep, processPruneEvent, formPruneEvent,
    ObjectStatusMap.lookup_set_self]

/-- A failed delete event with an identifier leaves that object with
    Actuation=Failed. -/
lemma destroyEventStep_failed_actuation (invID : ObjMetadata) (st : EventProcState)
    (id : ObjMetadata) (cause : Option OpError) :
    (((destroyEventStep invID st
        (formDeleteEvent .failed (some id) cause)).statusMap).lookup id).map
      ObjectStatus.actuation = some ActuationStatus.failed := by
  simp [destroyEventStep, processDeleteEvent, formDeleteEvent,
    ObjectStatusMap.lookup_set_self]

/-! ## Observed-kinds membership -/

/-- Membership in the observed-kinds result: exactly the kinds of declared
    objects not recorded as unknown-type. -/
lemma mem_computeObservedGVKs (objs : List KubeObject) (unknown : List ObjMetadata)
    (g : GroupVersionKind) :
    g ∈ computeObservedGVKs objs unknown
      ↔ ∃ o, o ∈ objs ∧ o.gvk = g ∧ o.objMetadata ∉ unknown := by
  simp only [computeObservedGVKs, List.mem_dedup, List.mem_map, List.mem_filter,
    Bool.not_eq_true', decide_eq_false_iff_not]
  constructor
  · rintro ⟨o, ⟨ho, hn⟩, hg⟩
    exact ⟨o, ho, hg, hn⟩
  · rintro ⟨o, ho, hg, hn⟩
    exact ⟨o, ⟨ho, hn⟩, hg⟩

/-! ## Projection lemmas for the Supervisor entry points -/

/-- Status map produced by Apply is the status map of the drained state. -/
lemma supervisorApply_statusMap (invID : ObjMetadata) (objs : List KubeObject)
    (events : List Event) :
    (supervisorApply invID objs events).statusMap
      = (events.foldl (applyEventStep invID) initProcState).statusMap := rfl

/-- Errors returned by Apply are the errors of the drained state. -/
lemma supervisorApply_errs (invID : ObjMetadata) (objs : List KubeObject)
    (events : List Event) :
    (supervisorApply invID objs events).errs
      = (events.foldl (applyEventStep invID) initProcState).errs := rfl

/-- Observed kinds returned by Apply are computed from the declared objects
    and the drained unknown-type set. -/
lemma supervisorApply_gvks (invID : ObjMetadata) (objs : List KubeObject)
    (events : List Event) :
    (supervisorApply invID objs events).gvks
      = computeObservedGVKs objs
          ((events.foldl (applyEventStep invID) initProcState).unknownTypeResources) := rfl

/-- Status map produced by Destroy is the status map of the drained state. -/
lemma supervisorDestroy_statusMap (invID : ObjMetadata) (events : List Event) :
    (supervisorDestroy invID events).statusMap
      = (events.foldl (destroyEventStep invID) initProcState).statusMap := rfl

/-- Errors returned by Destroy are the errors of the drained state. -/
lemma supervisorDestroy_errs (invID : ObjMetadata) (events : List Event) :
    (supervisorDestroy invID events).errs
      = (events.foldl (destroyEventStep invID) initProcState).errs := rfl

/-! ## Remediator helper lemmas -/

/-- An object found by identity lookup carries that identity. -/
lemma lookupLive_id (objs : List LiveObject) (id : ObjMetadata) (o : LiveObject)
    (h : lookupLive objs id = some o) : o.id = id := by
  induction objs with
  | nil => simp [lookupLive] at h
  | cons a rest ih =>
      by_cases ha : a.id = id
      · simp [lookupLive, ha] at h
        rw [← h]
        exact ha
      · simp [lookupLive, ha] at h
        exact ih h

/-- Deleting an identity removes it from lookup. -/
lemma lookupLive_erase_self (objs : List LiveObject) (id : ObjMetadata) :
    lookupLive (eraseLive objs id) id = none := by
  induction objs with
  | nil => rfl
  | cons a rest ih =>
      by_cases ha : a.id = id <;> simp [eraseLive, lookupLive, ha, ih]

/-- Create-or-update makes the written object the lookup result at its
    identity. -/
lemma lookupLive_set_self (objs : List LiveObject) (v : LiveObject) :
    lookupLive (setLive objs v) v.id = some v := by
  induction objs with
  | nil => simp [setLive, lookupLive]
  | cons a rest ih =>
      by_cases ha : a.id = v.id <;> simp [setLive, lookupLive, ha, ih]

/-! ## Claims -/

/-- Claim C2: an apply, prune or delete event that carries an identifier
    and a failure leaves that object with Actuation=Failed even after
    arbitrary further events not touching the object are processed
    (fail-open, no halting); the error collection of a drained stream is
    exactly the classified error of each event in arrival order, so no
    individual error is dropped or collapsed; in particular a stream of two
    failed apply events yields exactly the two typed resource errors. -/
theorem claim_C2 (invID : ObjMetadata) (objs : List KubeObject) (id id2 : ObjMetadata)
    (cause cause2 : OpError) (p s : List Event)
    (hs : ∀ ev ∈ s, applyEventTouches id ev = false)
    (hs2 : ∀ ev ∈ s, destroyEventTouches id ev = false) :
    ((((supervisorApply invID objs
          (p ++ formApplyEvent .failed (some id) (some cause) :: s)).statusMap).lookup
        id).map ObjectStatus.actuation = some ActuationStatus.failed)
    ∧ ((((supervisorApply invID objs
          (p ++ formPruneEvent .failed (some id) (some cause) :: s)).statusMap).lookup
        id).map ObjectStatus.actuation = some ActuationStatus.failed)
    ∧ ((((supervisorDestroy invID
          (p ++ formDeleteEvent .failed (some id) (some cause) :: s)).statusMap).lookup
        id).map ObjectStatus.actuation = some ActuationStatus.failed)
    ∧ (∀ events, (supervisorApply invID objs events).errs
        = events.filterMap (applyPipelineErrorOf invID))
    ∧ (∀ events, (supervisorDestroy invID events).errs
        = events.filterMap (destroyPipelineErrorOf invID))
    ∧ ((supervisorApply invID objs
          [formApplyEvent .failed (some id) (some cause),
           formApplyEvent .failed (some id2) (some cause2)]).errs
        = [TypedError.resourceError cause id, TypedError.resourceError cause2 id2]) := by
  refine ⟨?_, ?_, ?_, ?_, ?_, ?_⟩
  · rw [supervisorApply_statusMap, List.foldl_append, List.foldl_cons,
      foldl_applyEventStep_lookup_untouched invID s _ id hs]
    exact applyEventStep_failed_actuation invID _ id (some cause)
  · rw [supervisorApply_statusMap, List.foldl_append, List.foldl_cons,
      foldl_applyEventStep_lookup_untouched invID s _ id hs]
    exact applyEventStep_pruneFailed_actuation invID _ id (some cause)
  · rw [supervisorDestroy_statusMap, List.foldl_append, List.foldl_cons,
      foldl_destroyEventStep_lookup_untouched invID s _ id hs2]
    exact destroyEventStep_failed_actuation invID _ id (some cause)
  · intro events
    rw [supervisorApply_errs, foldl_applyEventStep_errs]
    simp [initProcState]
  · intro events
    rw [supervisorDestroy_errs, foldl_destroyEventStep_errs]
    simp [initProcState]
  · rw [supervisorApply_errs, foldl_applyEventStep_errs]
    simp [initProcState, applyPipelineErrorOf, formApplyEvent]

/-- Witness for claim C2 at the inputs of the TestApply unknown-type case. -/
theorem claim_C2_witness :
    (∀ ev ∈ ([formApplyEvent .pending none none] : List Event),
        applyEventTouches testID ev = false)
    ∧ (∀ ev ∈ ([formApplyEvent .pending none none] : List Event),
        destroyEventTouches testID ev = false)
    ∧ ((((supervisorApply rsInvID [deploymentObj, testObj]
          ([] ++ formApplyEvent .failed (some testID)
              (some (OpError.unknownType "unknown type"))
            :: [formApplyEvent .pending none none])).statusMap).lookup
        testID).map ObjectStatus.actuation = some ActuationStatus.failed) :=
  ⟨by decide, by decide,
   (claim_C2 rsInvID [deploymentObj, testObj] testID deploymentID
      (OpError.unknownType "unknown type") (OpError.generic "failed apply")
      [] [formApplyEvent .pending none none] (by decide) (by decide)).1⟩

/-- Claim C3: a skip caused by an inventory ownership-policy mismatch
    produces a management ConflictError for the object when the skipped
    operation is an apply, and no error at all when the skipped operation
    is a prune or a delete (abandonment is permitted). -/
theorem claim_C3 (invID : ObjMetadata) (objs : List KubeObject) (id : ObjMetadata)
    (obj : KubeObject) (strat : ActuationStrategy) (pol : InventoryPolicy)
    (ms : IDMatchStatus) :
    ((supervisorApply invID objs
        [formApplySkipEvent id obj (OpError.policyPrevented strat pol ms)]).errs
      = [TypedError.conflictError obj])
    ∧ ((supervisorApply invID objs
        [formPruneEvent .skipped (some id)
          (some (OpError.policyPrevented strat pol ms))]).errs = [])
    ∧ ((supervisorDestroy invID
        [formDeleteSkipEvent id obj (OpError.policyPrevented strat pol ms)]).errs
      = []) := by
  refine ⟨?_, ?_, ?_⟩
  · rw [supervisorApply_errs, foldl_applyEventStep_errs]
    simp [initProcState, applyPipelineErrorOf, formApplySkipEvent,
      handleApplySkippedEvent]
  · rw [supervisorApply_errs, foldl_applyEventStep_errs]
    simp [initProcState, applyPipelineErrorOf, formPruneEvent,
      handlePruneSkippedEvent]
  · rw [supervisorDestroy_errs, foldl_destroyEventStep_errs]
    simp [initProcState, destroyPipelineErrorOf, formDeleteSkipEvent,
      handleDeleteSkippedEvent]

/-- Claim C4: a skip event caused by a dependency relation produces a
    SkipError for the skipped object whose cause carries the related
    object's identity, the relationship direction, the relation phase and
    the relation's last known statuses, with the strategy recorded in the
    dependency error; in particular when B depends on A and A's actuation
    failed, B ends Skipped with a SkipError referencing A in phase
    Actuation. -/
theorem claim_C4 (invID : ObjMetadata) (objs : List KubeObject)
    (idB idA o : ObjMetadata) (objB : KubeObject) (strat : ActuationStrategy)
    (rel : Relationship) (phase : RelationPhase) (ras : ActuationStatus)
    (rrs : ReconcileStatus) :
    ((supervisorApply invID objs
        [formApplySkipEvent idB objB
          (OpError.dependencyPrevented o strat rel idA phase ras rrs)]).errs
      = [TypedError.skipError
          (OpError.dependencyPrevented o strat rel idA phase ras rrs) idB strat])
    ∧ ((supervisorApply invID objs
        [formPruneEvent .skipped (some idB)
          (some (OpError.dependencyPrevented o strat rel idA phase ras rrs))]).errs
      = [TypedError.skipError
          (OpError.dependencyPrevented o strat rel idA phase ras rrs) idB strat])
    ∧ ((supervisorDestroy invID
        [formDeleteSkipEvent idB objB
          (OpError.dependencyPrevented o strat rel idA phase ras rrs)]).errs
      = [TypedError.skipError
          (OpError.dependencyPrevented o strat rel idA phase ras rrs) idB strat])
    ∧ ((((supervisorApply invID objs
          [formApplySkipEvent idB objB
            (OpError.dependencyPrevented idB ActuationStrategy.apply
              Relationship.dependency idA RelationPhase.actuation
              ActuationStatus.failed ReconcileStatus.pending)]).statusMap).lookup
        idB).map ObjectStatus.actuation = some ActuationStatus.skipped)
    ∧ ((supervisorApply invID objs
        [formApplySkipEvent idB objB
          (OpError.dependencyPrevented idB ActuationStrategy.apply
            Relationship.dependency idA RelationPhase.actuation
            ActuationStatus.failed ReconcileStatus.pending)]).errs
      = [TypedError.skipError
          (OpError.dependencyPrevented idB ActuationStrategy.apply
            Relationship.dependency idA RelationPhase.actuation
            ActuationStatus.failed ReconcileStatus.pending)
          idB ActuationStrategy.apply]) := by
  refine ⟨?_, ?_, ?_, ?_, ?_⟩
  · rw [supervisorApply_errs, foldl_applyEventStep_errs]
    simp [initProcState, applyPipelineErrorOf, formApplySkipEvent,
      handleApplySkippedEvent]
  · rw [supervisorApply_errs, foldl_applyEventStep_errs]
    simp [initProcState, applyPipelineErrorOf, formPruneEvent,
      handlePruneSkippedEvent]
  · rw [supervisorDestroy_errs, foldl_destroyEventStep_errs]
    simp [initProcState, destroyPipelineErrorOf, formDeleteSkipEvent,
      handleDeleteSkippedEvent]
  · rw [supervisorApply_statusMap]
    simp [applyEventStep, processApplyEvent, formApplySkipEvent, initProcState,
      ObjectStatusMap.lookup_set_self]
  · rw [supervisorApply_errs, foldl_applyEventStep_errs]
    simp [initProcState, applyPipelineErrorOf, formApplySkipEvent,
      handleApplySkippedEvent]

/-- Claim C6: a stream-level error event whose cause matches the
    payload-too-large signature yields exactly one LargeInventoryError
    wrapping the inventory object identity, and no other error for that
    event, in both the Apply and the Destroy stream. -/
theorem claim_C6 (invID : ObjMetadata) (objs : List KubeObject) (e : OpError)
    (h : isRequestTooLargeError e = true) :
    ((supervisorApply invID objs [formErrorEvent e]).errs
      = [TypedError.largeInventoryError e invID])
    ∧ ((supervisorDestroy invID [formErrorEvent e]).errs
      = [TypedError.largeInventoryError e invID]) := by
  constructor
  · rw [supervisorApply_errs, foldl_applyEventStep_errs]
    simp [initProcState, applyPipelineErrorOf, formErrorEvent, h]
  · rw [supervisorDestroy_errs, foldl_destroyEventStep_errs]
    simp [initProcState, destroyPipelineErrorOf, formErrorEvent, h]

/-- Witness for claim C6 at the etcdserver sentinel error of the tests. -/
theorem claim_C6_witness :
    isRequestTooLargeError etcdError = true
    ∧ ((supervisorApply rsInvID [deploymentObj, testObj] [formErrorEvent etcdError]).errs
        = [TypedError.largeInventoryError etcdError rsInvID]) :=
  ⟨by decide,
   (claim_C6 rsInvID [deploymentObj, testObj] etcdError (by decide)).1⟩

/-- Claim C7: in a prune (or delete) stream where objA is pruned
    successfully, a namespace object is skipped with a namespace-in-use
    failure and a trailing identifier-less success event follows, the
    result contains exactly one SkipError for the namespace object with
    Delete strategy, objA ends with Actuation=Succeeded, and all three
    events of the stream are processed (the skip aborts nothing). -/
theorem claim_C7 (invID : ObjMetadata) (objs : List KubeObject)
    (objA nsID : ObjMetadata) (n : String) (h : objA ≠ nsID) :
    ((supervisorApply invID objs
        [formPruneEvent .successful (some objA) none,
         formPruneEvent .skipped (some nsID) (some (OpError.namespaceInUse n)),
         formPruneEvent .successful none none]).errs
      = [TypedError.skipError (OpError.namespaceInUse n) nsID
          ActuationStrategy.delete])
    ∧ (((supervisorApply invID objs
        [formPruneEvent .successful (some objA) none,
         formPruneEvent .skipped (some nsID) (some (OpError.namespaceInUse n)),
         formPruneEvent .successful none none]).statusMap).lookup objA
      = some { strategy := .delete, actuation := .succeeded, reconcile := .pending })
    ∧ ((supervisorApply invID objs
        [formPruneEvent .successful (some objA) none,
         formPruneEvent .skipped (some nsID) (some (OpError.namespaceInUse n)),
         formPruneEvent .successful none none]).stats.pruneEvents
      = [.successful, .skipped, .successful])
    ∧ ((supervisorDestroy invID
        [formDeleteEvent .successful (some objA) none,
         formDeleteEvent .skipped (some nsID) (some (OpError.namespaceInUse n)),
         formDeleteEvent .successful none none]).errs
      = [TypedError.skipError (OpError.namespaceInUse n) nsID
          ActuationStrategy.delete])
    ∧ (((supervisorDestroy invID
        [formDeleteEvent .successful (some objA) none,
         formDeleteEvent .skipped (some nsID) (some (OpError.namespaceInUse n)),
         formDeleteEvent .successful none none]).statusMap).lookup objA
      = some { strategy := .delete, actuation := .succeeded, reconcile := .pending }) := by
  refine ⟨?_, ?_, ?_, ?_, ?_⟩
  · rw [supervisorApply_errs, foldl_applyEventStep_errs]
    simp [initProcState, applyPipelineErrorOf, formPruneEvent,
      handlePruneSkippedEvent]
  · rw [supervisorApply_statusMap]
    simp [applyEventStep, processPruneEvent, formPruneEvent, initProcState,
      ObjectStatusMap.set, ObjectStatusMap.lookup, defaultObjectStatus, h]
  · rw [show (supervisorApply invID objs
        [formPruneEvent .successful (some objA) none,
         formPruneEvent .skipped (some nsID) (some (OpError.namespaceInUse n)),
         formPruneEvent .successful none none]).stats
      = ([formPruneEvent .successful (some objA) none,
          formPruneEvent .skipped (some nsID) (some (OpError.namespaceInUse n)),
          formPruneEvent .successful none none].foldl (applyEventStep invID)
            initProcState).stats from rfl]
    simp [applyEventStep, processPruneEvent, formPruneEvent, initProcState,
      emptySyncStats]
  · rw [supervisorDestroy_errs, foldl_destroyEventStep_errs]
    simp [initProcState, destroyPipelineErrorOf, formDeleteEvent,
      handleDeleteSkippedEvent]
  · rw [supervisorDestroy_statusMap]
    simp [destroyEventStep, processDeleteEvent, formDeleteEvent, initProcState,
      ObjectStatusMap.set, ObjectStatusMap.lookup, defaultObjectStatus, h]

/-- Witness for claim C7 at the inputs of the skipped-pruning test case. -/
theorem claim_C7_witness :
    testID ≠ namespaceID
    ∧ ((supervisorApply rsInvID [deploymentObj, testObj]
        [formPruneEvent .successful (some testID) none,
         formPruneEvent .skipped (some namespaceID)
            (some (OpError.namespaceInUse "test-namespace")),
         formPruneEvent .successful none none]).errs
      = [TypedError.skipError (OpError.namespaceInUse "test-namespace") namespaceID
          ActuationStrategy.delete]) :=
  ⟨by decide,
   (claim_C7 rsInvID [deploymentObj, testObj] testID namespaceID "test-namespace"
      (by decide)).1⟩

/-- Claim C1 counterexample: on the inventory-too-large test case the
    stream has no apply event at all, yet Apply returns a non-empty kind
    set (the declared Test kind is in it), so the returned set is not the
    set of kinds observed in apply events. -/
theorem claim_C1_counterexample :
    testGVK ∈ (supervisorApply rsInvID [deploymentObj, testObj]
        [formErrorEvent etcdError]).gvks
    ∧ testGVK ∉ specObservedApplyGVKs [formErrorEvent etcdError]
    ∧ specObservedApplyGVKs [formErrorEvent etcdError] = [] := by
  decide

/-- Claim C1 (amended): Apply returns as its first result exactly the set
    of GroupVersionKinds of the declared objects, excluding declared
    objects whose identifier was recorded as an unknown-type resource by a
    failed apply event carrying an UnknownTypeError; the kinds are taken
    from the declared set, not from the kinds appearing in apply events. -/
theorem claim_C1 (invID : ObjMetadata) (objs : List KubeObject)
    (events : List Event) (g : GroupVersionKind) :
    g ∈ (supervisorApply invID objs events).gvks
      ↔ ∃ o, o ∈ objs ∧ o.gvk = g ∧ o.objMetadata ∉ specUnknownTypeIds events := by
  rw [supervisorApply_gvks, mem_computeObservedGVKs, foldl_applyEventStep_unknown]
  simp [initProcState]

/-- Claim C5 counterexample: a wait event for an identifier with no prior
    actuation record does not leave the status map unchanged; it creates a
    fresh record with the reconcile state of the event, exactly as
    TestProcessWaitEvent expects. -/
theorem claim_C5_counterexample :
    initProcState.statusMap.lookup deploymentID = none
    ∧ (processWaitEvent { status := .failed, identifier := deploymentID }
          initProcState).statusMap
        = [(deploymentID,
            { strategy := .apply, actuation := .pending, reconcile := .failed })]
    ∧ (processWaitEvent { status := .failed, identifier := deploymentID }
          initProcState).statusMap ≠ initProcState.statusMap := by
  decide

/-- Claim C5 (amended): a wait event whose identifier has no prior record
    in the status map creates a fresh record for it, with zero-valued
    strategy and actuation and the reconcile state set from the event, and
    produces no error; the rest of the state map is written through the
    ordinary map write. -/
theorem claim_C5 (st : EventProcState) (e : WaitEvent)
    (h : st.statusMap.lookup e.identifier = none) :
    (processWaitEvent e st).statusMap
      = st.statusMap.set e.identifier
          { defaultObjectStatus with reconcile := e.status.toReconcile }
    ∧ (processWaitEvent e st).errs = st.errs := by
  constructor
  · simp [processWaitEvent, h]
  · simp [processWaitEvent]

/-- Witness for claim C5 on the empty status map. -/
theorem claim_C5_witness :
    initProcState.statusMap.lookup testID = none
    ∧ (processWaitEvent { status := .successful, identifier := testID }
          initProcState).statusMap
        = initProcState.statusMap.set testID
            { defaultObjectStatus with
                reconcile := WaitEventStatus.successful.toReconcile } :=
  ⟨by decide,
   (claim_C5 initProcState { status := .successful, identifier := testID }
      (by decide)).1⟩

/-- Claim C8: when an object's identity is absent from the declared set the
    worker deletes its live copy (and it no longer exists live afterwards);
    when the identity is declared and the queue entry is tombstoned or the
    live object diverges from the declared state, the worker re-applies the
    declared state, so the cluster converges back to the declared
    manifest at that identity. -/
theorem claim_C8 (declared cluster : List LiveObject) (entry : QueueEntry) :
    (lookupLive declared entry.obj.id = none →
        workerProcess declared cluster entry = eraseLive cluster entry.obj.id
        ∧ lookupLive (workerProcess declared cluster entry) entry.obj.id = none)
    ∧ (∀ decl, lookupLive declared entry.obj.id = some decl →
        (entry.deleted = true ∨ lookupLive cluster entry.obj.id ≠ some decl) →
        lookupLive (workerProcess declared cluster entry) entry.obj.id = some decl) := by
  constructor
  · intro h
    refine ⟨by simp [workerProcess, h], ?_⟩
    simp [workerProcess, h, lookupLive_erase_self]
  · intro decl h hcond
    have hid : decl.id = entry.obj.id := lookupLive_id _ _ _ h
    simp only [workerProcess, h]
    rw [if_pos hcond, ← hid]
    exact lookupLive_set_self cluster decl

/-- Witness for claim C8: deletion of an undeclared live object, and
    re-creation of a declared object observed deleted. -/
theorem claim_C8_witness :
    (lookupLive []
        ({ obj := { id := testID, body := "role" }, deleted := false } :
          QueueEntry).obj.id = none
      ∧ workerProcess [] [{ id := testID, body := "role" }]
          { obj := { id := testID, body := "role" }, deleted := false }
        = eraseLive [{ id := testID, body := "role" }] testID)
    ∧ (lookupLive [{ id := testID, body := "role" }] testID
        = some { id := testID, body := "role" }
      ∧ lookupLive
          (workerProcess [{ id := testID, body := "role" }] []
            { obj := { id := testID, body := "role" }, deleted := true }) testID
        = some { id := testID, body := "role" }) :=
  ⟨⟨by decide,
    ((claim_C8 [] [{ id := testID, body := "role" }]
        { obj := { id := testID, body := "role" }, deleted := false }).1
      (by decide)).1⟩,
   ⟨by decide,
    (claim_C8 [{ id := testID, body := "role" }] []
        { obj := { id := testID, body := "role" }, deleted := true }).2
      { id := testID, body := "role" } (by decide) (Or.inl (by decide))⟩⟩

/-- Claim C9: a refresh whose direct get returns not-found re-queues the
    object marked deleted and returns no error; a refresh whose direct get
    fails with any other API error leaves the pending queue entry unchanged
    and returns the wrapped API server error. -/
theorem claim_C9 (pending : Option QueueEntry) (o : LiveObject) (e : OpError) :
    workerRefresh GetResult.notFound pending o
      = (some { obj := o, deleted := true }, none)
    ∧ workerRefresh (GetResult.apiError e) pending o
      = (pending, some (RemediatorError.apiServerError e)) :=
  ⟨rfl, rfl⟩

/-- Claim C10: after SafeOverride the Override field is present and the
    returned value is exactly that field; when Override was already present
    the spec is returned unmodified with the existing value; the operation
    is idempotent, for both RepoSyncSpec and RootSyncSpec. -/
theorem claim_C10 (rs : RepoSyncSpec) (rt : RootSyncSpec) :
    ((rs.safeOverride).1.override = some (rs.safeOverride).2)
    ∧ (∀ o, rs.override = some o → rs.safeOverride = (rs, o))
    ∧ ((rs.safeOverride).1.safeOverride = ((rs.safeOverride).1, (rs.safeOverride).2))
    ∧ ((rt.safeOverride).1.override = some (rt.safeOverride).2)
    ∧ (∀ o, rt.override = some o → rt.safeOverride = (rt, o))
    ∧ ((rt.safeOverride).1.safeOverride
        = ((rt.safeOverride).1, (rt.safeOverride).2)) := by
  obtain ⟨ov⟩ := rs
  obtain ⟨ov2⟩ := rt
  cases ov <;> cases ov2 <;>
    simp [RepoSyncSpec.safeOverride, RootSyncSpec.safeOverride]

/-- Witness for claim C10 on a spec with an existing override. -/
theorem claim_C10_witness :
    ({ override := some emptyOverrideSpec } : RepoSyncSpec).override
      = some emptyOverrideSpec
    ∧ RepoSyncSpec.safeOverride { override := some emptyOverrideSpec }
      = ({ override := some emptyOverrideSpec }, emptyOverrideSpec) :=
  ⟨rfl,
   (claim_C10 { override := some emptyOverrideSpec }
      { override := none }).2.1 emptyOverrideSpec rfl⟩

end ConfigSync
